import Mathlib

/-!
Shallow embedding of the hardware-detection core of `llm-neofetch-plus`
(`src/detectors.py`, the `format_size` helper of `src/ui.py`, and the
collector `LLMNeofetch.collect_system_info` of `llm_neofetch.py`).

Host-machine state (external tools, pseudo-files, psutil facilities) is
modelled by explicit environment records; every Python function of the
detection layer becomes a total Lean function of such an environment.
Python exceptions raised by host facilities are modelled with `Except` /
`Option` on the corresponding environment channel, and the `try/except`
blocks of the source are translated clause by clause.
-/

namespace LLMNeofetch

/-- Python exception classes relevant to the detection layer. -/
inductive PyExc where
  | permissionError
  | attributeError
  | keyError
  | valueError
  | osError
  | generic
deriving DecidableEq

/-- Outcome of `subprocess.check_output(cmd, shell=True, ...)` for one
invocation: either the captured standard output, or one of the failure
modes the source catches (`TimeoutExpired`, `CalledProcessError`,
`FileNotFoundError`, any other `Exception`). -/
inductive CmdOutcome where
  | success (stdout : String)
  | timeoutExpired
  | calledProcessError
  | fileNotFound
  | otherException
deriving DecidableEq

/-- Host environment for the command runner: the outcome of executing a
given command line with a given timeout. -/
def CmdEnv : Type := String → Nat → CmdOutcome

/-- Model of Python `str.strip()`: remove leading and trailing whitespace. -/
def pyStrip (s : String) : String :=
  String.mk (((s.data.dropWhile Char.isWhitespace).reverse.dropWhile Char.isWhitespace).reverse)

/-- Model of Python `str.lower()` for the ASCII device paths and tool
output handled by the source. -/
def pyLower (s : String) : String :=
  String.mk (s.data.map Char.toLower)

/-- Model of Python `str.startswith(pre)`. -/
def pyStartsWith (s pre : String) : Bool :=
  pre.data.isPrefixOf s.data

/-- Occurrence of `needle` at some position of the character list. -/
def occursAt (needle : List Char) : List Char → Bool
  | [] => needle.isEmpty
  | c :: cs => needle.isPrefixOf (c :: cs) || occursAt needle cs

/-- Model of the Python substring test `needle in haystack`. -/
def pyIn (needle haystack : String) : Bool :=
  occursAt needle.data haystack.data

/-- Auxiliary for `splitChar`. -/
def splitCharAux (sep : Char) : List Char → List Char → List String
  | [], acc => [String.mk acc.reverse]
  | c :: cs, acc =>
    if c = sep then String.mk acc.reverse :: splitCharAux sep cs []
    else splitCharAux sep cs (c :: acc)

/-- Model of Python `str.split(sep)` for a one-character separator; with
`sep = chr 10` it also models `str.splitlines()` on the newline-separated
tool output handled by the source. -/
def splitChar (sep : Char) (s : String) : List String :=
  splitCharAux sep s.data []

/-- Model of Python string truthiness composition `a or b`. -/
def pyOrS (a b : String) : String :=
  if a = "" then b else a

/-- Value of a list of decimal digit characters. -/
def digitsVal (cs : List Char) : Nat :=
  cs.foldl (fun n c => 10 * n + (c.toNat - 48)) 0

/-- Models Python `float()` on the plain decimal strings the vendor tools
emit (optional sign, digit run, optional fractional part, surrounding
whitespace); any other form is a parse failure, i.e. `ValueError`,
modelled as `none`. -/
def pyFloat (s : String) : Option ℚ :=
  let t := (pyStrip s).data
  let signAndDigits : ℚ × List Char :=
    match t with
    | '-' :: cs => (-1, cs)
    | '+' :: cs => (1, cs)
    | cs => (1, cs)
  match splitChar '.' (String.mk signAndDigits.2) with
  | [iPart] =>
    if iPart ≠ "" ∧ iPart.data.all Char.isDigit then
      some (signAndDigits.1 * digitsVal iPart.data)
    else none
  | [iPart, fPart] =>
    if (iPart ≠ "" ∨ fPart ≠ "") ∧ iPart.data.all Char.isDigit ∧ fPart.data.all Char.isDigit then
      some (signAndDigits.1 *
        ((digitsVal iPart.data : ℚ) + (digitsVal fPart.data : ℚ) / (10 ^ fPart.length)))
    else none
  | _ => none

namespace BaseDetector

/-- Embedding of `BaseDetector.run_command` (src/src/detectors.py:32-56):
execute a shell command with a timeout, return stripped stdout on
success and the empty string on `TimeoutExpired`, `CalledProcessError`,
`FileNotFoundError`, or any other `Exception`. -/
def run_command (env : CmdEnv) (cmd : String) (timeout : Nat) : String :=
  match env cmd timeout with
  | .success out => pyStrip out
  | .timeoutExpired => ""
  | .calledProcessError => ""
  | .fileNotFound => ""
  | .otherException => ""

end BaseDetector

end LLMNeofetch

namespace LLMNeofetch

/-- C2: for every command line and timeout, `run_command` returns a string
(never raises): on success the captured stdout with surrounding
whitespace trimmed, and on timeout expiry, non-zero exit status, missing
executable, or any other execution failure the empty string. -/
theorem C2_run_command_total (env : CmdEnv) (cmd : String) (t : Nat) :
    (∀ out, env cmd t = .success out → BaseDetector.run_command env cmd t = pyStrip out) ∧
    ((∀ out, env cmd t ≠ .success out) → BaseDetector.run_command env cmd t = "") := by
  constructor
  · intro out h
    simp [BaseDetector.run_command, h]
  · intro h
    cases hc : env cmd t with
    | success out => exact absurd hc (h out)
    | timeoutExpired => simp [BaseDetector.run_command, hc]
    | calledProcessError => simp [BaseDetector.run_command, hc]
    | fileNotFound => simp [BaseDetector.run_command, hc]
    | otherException => simp [BaseDetector.run_command, hc]

/-- Host where `echo test` prints `test` plus a newline. -/
def cmdEnvEcho : CmdEnv := fun _ _ => CmdOutcome.success "test\n"

/-- Host where every command fails with executable-not-found. -/
def cmdEnvMissing : CmdEnv := fun _ _ => CmdOutcome.fileNotFound

/-- Witness for C2: `run("echo test", 5)` returns exactly `"test"` on a
host whose shell prints `test\n`, and a missing executable yields `""`. -/
theorem C2_run_command_total_witness :
    BaseDetector.run_command cmdEnvEcho "echo test" 5 = "test" ∧
    BaseDetector.run_command cmdEnvMissing "this_command_does_not_exist_12345" 5 = "" := by
  constructor
  · have h := (C2_run_command_total cmdEnvEcho "echo test" 5).1 "test\n" rfl
    rw [h]
    decide
  · exact (C2_run_command_total cmdEnvMissing "this_command_does_not_exist_12345" 5).2
      (fun out h => by simp [cmdEnvMissing] at h)

end LLMNeofetch

namespace LLMNeofetch

/-- Host facilities read by `OSDetector.detect`: `platform.system()`,
`platform.uname()`, `platform.platform(terse=True)`,
`platform.python_version()`. -/
structure OsEnv where
  system : String
  release : String
  version : String
  machine : String
  platform_str : String
  python_version : String
deriving DecidableEq

/-- The dictionary returned by `OSDetector.detect`
(src/src/detectors.py:62-78). -/
structure OsInfo where
  system : String
  release : String
  version : String
  machine : String
  platform_str : String
  python_version : String
deriving DecidableEq

/-- Embedding of `OSDetector.detect` (src/src/detectors.py:62-78). -/
def OSDetector.detect (env : OsEnv) : OsInfo :=
  { system := env.system, release := env.release, version := env.version,
    machine := env.machine, platform_str := env.platform_str,
    python_version := env.python_version }

/-- The dictionary returned by `OSDetector.get_uptime`
(src/src/detectors.py:80-93). -/
structure UptimeInfo where
  days : Nat
  hours : Nat
  minutes : Nat
  total_seconds : Nat
deriving DecidableEq

/-- Embedding of `OSDetector.get_uptime` (src/src/detectors.py:80-93) for a
non-negative elapsed uptime of `T` whole seconds: Python computes
`timedelta.days = T // 86400`, `timedelta.seconds = T % 86400`,
`hours = seconds // 3600`, `minutes = (seconds % 3600) // 60`, and
`int(total_seconds()) = T` (truncation discards only sub-second
microseconds, which are not representable here). -/
def OSDetector.get_uptime (T : Nat) : UptimeInfo :=
  { days := T / 86400,
    hours := T % 86400 / 3600,
    minutes := T % 86400 % 3600 / 60,
    total_seconds := T }

end LLMNeofetch

namespace LLMNeofetch

/-- C7: for every non-negative elapsed uptime, the record returned by
`get_uptime` satisfies the round-trip identity: with `T` the returned
`total_seconds`, `days*86400 + hours*3600 + minutes*60 + (T mod 60)`
recovers `T` exactly (hence within 60 seconds of `T`), where the derived
fields are the floor-division remainder chain of `T`. -/
theorem C7_uptime_roundtrip (T : Nat) :
    (OSDetector.get_uptime T).days * 86400 + (OSDetector.get_uptime T).hours * 3600 +
      (OSDetector.get_uptime T).minutes * 60 +
      (OSDetector.get_uptime T).total_seconds % 60 =
      (OSDetector.get_uptime T).total_seconds ∧
    (OSDetector.get_uptime T).total_seconds = T := by
  refine ⟨?_, rfl⟩
  simp only [OSDetector.get_uptime]
  omega

end LLMNeofetch

namespace LLMNeofetch

/-- Host facilities read by `CPUDetector.detect`: the generic processor
identifiers, `sys.platform`, the shell, `psutil.cpu_count` for both
modes (`none` models Python `None`), `psutil.cpu_freq()` as an optional
(current, max) pair, the sampled `psutil.cpu_percent(interval=1)`, and
`psutil.sensors_temperatures()` as an association list from sensor-group
name to the `current` readings of its entries; an `Except.error` on the
sensors channel models that call raising (`AttributeError` on platforms
without the API, `KeyError`, or any other exception). -/
structure CpuEnv where
  platform_processor : String
  uname_processor : String
  sys_platform : String
  cmd : CmdEnv
  cores_physical : Option Nat
  cores_logical : Option Nat
  freq : Option (ℚ × ℚ)
  cpu_percent : ℚ
  sensors : Except PyExc (List (String × List ℚ))

/-- The dictionary returned by `CPUDetector.detect`
(src/src/detectors.py:134-142). -/
structure CpuInfo where
  name : String
  cores_physical : Nat
  cores_logical : Nat
  current_freq_mhz : ℚ
  max_freq_mhz : ℚ
  usage_percent : ℚ
  temperature_c : Option ℚ
deriving DecidableEq

/-- Model of Python dict lookup `temps[name]` with a `name in temps`
guard: first binding of the key in insertion order. -/
def lookupSensor (temps : List (String × List ℚ)) (name : String) : Option (List ℚ) :=
  (temps.find? (fun p => p.1 == name)).map Prod.snd

/-- The preferred-sensor loop of `CPUDetector._get_temperature`
(src/src/detectors.py:156-158): first name of the preference list that is
present with a non-empty reading list wins. -/
def preferredSensor (temps : List (String × List ℚ)) : List String → Option ℚ
  | [] => none
  | n :: ns =>
    match lookupSensor temps n with
    | some (t :: _) => some t
    | some [] => preferredSensor temps ns
    | none => preferredSensor temps ns

/-- The fallback loop of `CPUDetector._get_temperature`
(src/src/detectors.py:160-162): first reading of the first non-empty
sensor group, in insertion order. -/
def firstReading : List (String × List ℚ) → Option ℚ
  | [] => none
  | (_, t :: _) :: _ => some t
  | (_, []) :: rest => firstReading rest

/-- Embedding of `CPUDetector._get_temperature`
(src/src/detectors.py:144-166), part one: the selection logic applied to
a successfully read sensors dictionary — empty dictionary yields `none`,
then the preference list, then the first reading of any group. The
`except (AttributeError, KeyError)` clause of the source is translated
exactly in `CPUDetector.get_temperature` below: those two exception
classes degrade to `none`, any other exception from the sensors facility
propagates. -/
def tempsFromDict (temps : List (String × List ℚ)) : Option ℚ :=
  if temps.isEmpty then none
  else
    match preferredSensor temps ["coretemp", "cpu_thermal", "k10temp", "zenpower"] with
    | some t => some t
    | none => firstReading temps

/-- Embedding of the `try` body of `_get_temperature` continued: dispatch
on the sensors facility, catching exactly `AttributeError` and
`KeyError`. -/
def CPUDetector.get_temperature (env : CpuEnv) : Except PyExc (Option ℚ) :=
  match env.sensors with
  | .error .attributeError => .ok none
  | .error .keyError => .ok none
  | .error e => .error e
  | .ok temps => .ok (tempsFromDict temps)

/-- The CPU-name fallback chain of `CPUDetector.detect`
(src/src/detectors.py:106-121), culminating in the final
`cpu_name.strip() or "Unknown CPU"` of line 135. -/
def CPUDetector.resolve_cpu_name (env : CpuEnv) : String :=
  let cpu_name := pyOrS env.platform_processor env.uname_processor
  let cpu_name :=
    if cpu_name = "" ∧ pyStartsWith env.sys_platform "win" = true then
      let out := BaseDetector.run_command env.cmd "wmic cpu get name" 5
      if out ≠ "" then
        let lines := splitChar '\n' out
        if lines.length > 1 then pyStrip (lines.getLastD "") else "Unknown"
      else out
    else cpu_name
  let cpu_name :=
    if env.sys_platform = "darwin" ∧ cpu_name = "" then
      BaseDetector.run_command env.cmd "sysctl -n machdep.cpu.brand_string" 5
    else cpu_name
  let cpu_name :=
    if cpu_name = "" ∧ pyStartsWith env.sys_platform "linux" = true then
      BaseDetector.run_command env.cmd
        "cat /proc/cpuinfo | grep \x27model name\x27 | head -1 | cut -d\x27:\x27 -f2" 5
    else cpu_name
  pyOrS (pyStrip cpu_name) "Unknown CPU"

/-- Embedding of `CPUDetector.detect` (src/src/detectors.py:99-142). The
only internally fallible step is the temperature read; everything else is
a direct read of host facilities with `or 0` style defaults. -/
def CPUDetector.detect (env : CpuEnv) : Except PyExc CpuInfo := do
  let temperature ← CPUDetector.get_temperature env
  .ok {
    name := CPUDetector.resolve_cpu_name env,
    cores_physical := env.cores_physical.getD 0,
    cores_logical := env.cores_logical.getD 0,
    current_freq_mhz := match env.freq with | some f => f.1 | none => 0,
    max_freq_mhz := match env.freq with | some f => f.2 | none => 0,
    usage_percent := env.cpu_percent,
    temperature_c := temperature }

end LLMNeofetch

namespace LLMNeofetch

/-- C10: on the Windows family, when the generic processor identifiers are
empty and the wmic CPU-name query returns exactly one line of output,
`CPUDetector.detect` sets the CPU name to the literal `"Unknown"`, a
second not-determined sentinel distinct from the documented
`"Unknown CPU"`. -/
theorem C10_wmic_single_line_unknown (env : CpuEnv)
    (h1 : env.platform_processor = "") (h2 : env.uname_processor = "")
    (h3 : pyStartsWith env.sys_platform "win" = true)
    (h4 : BaseDetector.run_command env.cmd "wmic cpu get name" 5 ≠ "")
    (h5 : (splitChar '\n' (BaseDetector.run_command env.cmd "wmic cpu get name" 5)).length = 1) :
    ∀ info, CPUDetector.detect env = .ok info →
      info.name = "Unknown" ∧ info.name ≠ "Unknown CPU" := by
  have hwin_ne_darwin : env.sys_platform ≠ "darwin" := by
    intro hd
    rw [hd] at h3
    exact absurd h3 (by decide)
  have hname : CPUDetector.resolve_cpu_name env = "Unknown" := by
    unfold CPUDetector.resolve_cpu_name
    simp only [h1, h2]
    rw [show pyOrS "" "" = "" from rfl]
    rw [if_pos (show ("" : String) = "" ∧ pyStartsWith env.sys_platform "win" = true from
      ⟨rfl, h3⟩)]
    rw [if_pos h4]
    rw [if_neg (show ¬ (splitChar '\n'
        (BaseDetector.run_command env.cmd "wmic cpu get name" 5)).length > 1 by omega)]
    rw [if_neg (show ¬ (env.sys_platform = "darwin" ∧ ("Unknown" : String) = "") from
      fun h => hwin_ne_darwin h.1)]
    rw [if_neg (show ¬ (("Unknown" : String) = "" ∧
        pyStartsWith env.sys_platform "linux" = true) from fun h => absurd h.1 (by decide))]
    decide
  intro info hinfo
  have hn : info.name = CPUDetector.resolve_cpu_name env := by
    unfold CPUDetector.detect at hinfo
    cases htemp : CPUDetector.get_temperature env with
    | error e => rw [htemp] at hinfo; exact Except.noConfusion hinfo
    | ok t =>
      rw [htemp] at hinfo
      simp only [Bind.bind, Except.bind, Except.ok.injEq] at hinfo
      rw [← hinfo]
  constructor
  · rw [hn, hname]
  · rw [hn, hname]
    decide

/-- Concrete Windows host for the C10 witness: both generic processor
identifiers empty, wmic prints a single line. -/
def cpuEnvC10 : CpuEnv :=
  { platform_processor := ""
    uname_processor := ""
    sys_platform := "win32"
    cmd := fun c _ => if c = "wmic cpu get name" then .success "Name\n" else .fileNotFound
    cores_physical := some 4
    cores_logical := some 8
    freq := none
    cpu_percent := 0
    sensors := .ok [] }

/-- Witness for C10 at a concrete host state. -/
theorem C10_wmic_single_line_unknown_witness :
    ∃ info, CPUDetector.detect cpuEnvC10 = .ok info ∧
      info.name = "Unknown" ∧ info.name ≠ "Unknown CPU" := by
  have h := C10_wmic_single_line_unknown cpuEnvC10 rfl rfl (by decide) (by decide) (by decide)
  refine ⟨{ name := "Unknown", cores_physical := 4, cores_logical := 8,
            current_freq_mhz := 0, max_freq_mhz := 0, usage_percent := 0,
            temperature_c := none }, ?_, ?_⟩
  · rfl
  · exact h _ rfl

end LLMNeofetch

namespace LLMNeofetch

/-- One record of the GPU list returned by `GPUDetector.detect`
(src/src/detectors.py:172-200). -/
structure GpuInfo where
  vendor : String
  name : String
  vram_total_gb : ℚ
  vram_used_gb : ℚ
  utilization_percent : ℚ
  temperature_c : Option ℚ
deriving DecidableEq

/-- One `Win32_VideoController` device as seen by the WMI fallback:
`Name` and the optional `AdapterRAM` byte count (`none` models a Python
`None` attribute). -/
structure VideoController where
  name : String
  adapterRAM : Option Nat
deriving DecidableEq

/-- Host facilities read by `GPUDetector`: `shutil.which`, the shell,
`WMI_AVAILABLE`, `sys.platform`, and the video controllers yielded by the
WMI enumeration before any internal failure (a failure inside the
`try` of `_detect_wmi` is caught and only logged, so only the controllers
yielded before it are observable). -/
structure GpuEnv where
  which : String → Bool
  cmd : CmdEnv
  wmi_available : Bool
  sys_platform : String
  wmi_video : List VideoController

/-- Parsing of one csv line of nvidia-smi output
(src/src/detectors.py:221-238): fields are comma-split and stripped; a
line with fewer than five fields, or any `float()` conversion raising
`ValueError`, is skipped. -/
def parseNvidiaNums (p1 p2 p3 p4 : String) : Option (ℚ × ℚ × ℚ × Option ℚ) :=
  match pyFloat p1, pyFloat p2, pyFloat p3 with
  | some total, some used, some util =>
    if p4 = "[N/A]" then some (total, used, util, none)
    else
      match pyFloat p4 with
      | some temp => some (total, used, util, some temp)
      | none => none
  | _, _, _ => none

/-- Record construction for one successfully parsed nvidia-smi line
(src/src/detectors.py:225-236): reported MiB are divided by 1024. -/
def parseNvidiaLine (line : String) : Option GpuInfo :=
  match (splitChar ',' line).map pyStrip with
  | p0 :: p1 :: p2 :: p3 :: p4 :: _ =>
    (parseNvidiaNums p1 p2 p3 p4).map fun q =>
      { vendor := "NVIDIA", name := p0, vram_total_gb := q.1 / 1024,
        vram_used_gb := q.2.1 / 1024, utilization_percent := q.2.2.1,
        temperature_c := q.2.2.2 }
  | _ => none

/-- Line handling of `_detect_nvidia` once the tool produced output
(src/src/detectors.py:218-240). -/
def GPUDetector.nvidiaFromOutput (output : String) : List GpuInfo :=
  if output = "" then []
  else (splitChar '\n' output).filterMap parseNvidiaLine

/-- Embedding of `GPUDetector._detect_nvidia`
(src/src/detectors.py:202-240). -/
def GPUDetector.detect_nvidia (env : GpuEnv) : List GpuInfo :=
  if env.which "nvidia-smi" = false then []
  else GPUDetector.nvidiaFromOutput (BaseDetector.run_command env.cmd
    "nvidia-smi --query-gpu=name,memory.total,memory.used,utilization.gpu,temperature.gpu --format=csv,noheader,nounits" 5)

/-- The name-extraction loop of `_detect_amd`
(src/src/detectors.py:261-266): the first line containing `"GPU"` or
`"Card"` that also has text after a colon wins; otherwise the default
`"AMD GPU"` stands. -/
def amdNameFromLines : List String → String
  | [] => "AMD GPU"
  | line :: rest =>
    if pyIn "GPU" line || pyIn "Card" line then
      match splitChar ':' line with
      | _ :: p1 :: _ => pyStrip p1
      | _ => amdNameFromLines rest
    else amdNameFromLines rest

/-- Embedding of `GPUDetector._detect_amd` (src/src/detectors.py:242-279).
The three extra rocm-smi queries (memory, temperature, utilization) are
invoked in the source but their output is discarded, so they do not
appear in the model. -/
def GPUDetector.amdFromOutput (name_output : String) : List GpuInfo :=
  if name_output = "" then []
  else
    [{ vendor := "AMD", name := amdNameFromLines (splitChar '\n' name_output),
       vram_total_gb := 0, vram_used_gb := 0, utilization_percent := 0,
       temperature_c := none }]

/-- Embedding of `GPUDetector._detect_amd` continued: tool-presence guard
and name query (src/src/detectors.py:251-259). -/
def GPUDetector.detect_amd (env : GpuEnv) : List GpuInfo :=
  if env.which "rocm-smi" = false then []
  else GPUDetector.amdFromOutput
    (BaseDetector.run_command env.cmd "rocm-smi --showproductname" 5)

/-- Embedding of `GPUDetector._detect_intel`
(src/src/detectors.py:281-304). -/
def GPUDetector.detect_intel (env : GpuEnv) : List GpuInfo :=
  if env.which "sycl-ls" = true then
    if pyIn "Intel" (BaseDetector.run_command env.cmd "sycl-ls" 5) then
      [{ vendor := "Intel", name := "Intel GPU (Arc/Xe)", vram_total_gb := 0,
         vram_used_gb := 0, utilization_percent := 0, temperature_c := none }]
    else []
  else []

/-- Keyword filter and record construction of `_detect_wmi`
(src/src/detectors.py:317-335): keep controllers whose stripped name
contains a brand keyword; `AdapterRAM or 0` then the truthiness guard
turn a missing or zero byte count into 0 GB. -/
def parseWmiController (v : VideoController) : Option GpuInfo :=
  if pyIn "NVIDIA" (pyStrip v.name) || pyIn "AMD" (pyStrip v.name) ||
      pyIn "Intel" (pyStrip v.name) || pyIn "Radeon" (pyStrip v.name) ||
      pyIn "GeForce" (pyStrip v.name) then
    some { vendor := "Integrated/Discrete", name := pyStrip v.name,
           vram_total_gb :=
             if v.adapterRAM.getD 0 ≠ 0 then ((v.adapterRAM.getD 0 : Nat) : ℚ) / 1024 ^ 3
             else 0,
           vram_used_gb := 0, utilization_percent := 0, temperature_c := none }
  else none

/-- Embedding of `GPUDetector._detect_wmi` (src/src/detectors.py:306-339). -/
def GPUDetector.detect_wmi (env : GpuEnv) : List GpuInfo :=
  env.wmi_video.filterMap parseWmiController

/-- The sentinel record appended when no GPU was detected
(src/src/detectors.py:188-198). -/
def noGpuSentinel : GpuInfo :=
  { vendor := "Unknown", name := "No dedicated GPU detected", vram_total_gb := 0,
    vram_used_gb := 0, utilization_percent := 0, temperature_c := some 0 }

/-- The union of the three vendor sub-probes run unconditionally by
`GPUDetector.detect` (src/src/detectors.py:181-183). -/
def GPUDetector.gpus_pre (env : GpuEnv) : List GpuInfo :=
  GPUDetector.detect_nvidia env ++ GPUDetector.detect_amd env ++
    GPUDetector.detect_intel env

/-- The conditional WMI fallback extension of `GPUDetector.detect`
(src/src/detectors.py:185-186): only attempted when the union is still
empty, WMI is importable, and the host is the Windows family. -/
def GPUDetector.gpus_with_fallback (env : GpuEnv) : List GpuInfo :=
  if (GPUDetector.gpus_pre env).isEmpty ∧ env.wmi_available = true ∧
      pyStartsWith env.sys_platform "win" = true then
    GPUDetector.gpus_pre env ++ GPUDetector.detect_wmi env
  else GPUDetector.gpus_pre env

/-- Embedding of `GPUDetector.detect` (src/src/detectors.py:172-200):
append the sentinel record when everything else yielded nothing. -/
def GPUDetector.detect (env : GpuEnv) : List GpuInfo :=
  if (GPUDetector.gpus_with_fallback env).isEmpty then
    GPUDetector.gpus_with_fallback env ++ [noGpuSentinel]
  else GPUDetector.gpus_with_fallback env

end LLMNeofetch

namespace LLMNeofetch

/-- C3: `GPUDetector.detect` always returns a non-empty list; when the
NVIDIA, AMD and Intel sub-probes and the Windows device-enumeration
fallback all yield nothing, the result is exactly one sentinel record
with vendor `"Unknown"`, name `"No dedicated GPU detected"`, and every
numeric field (VRAM total, VRAM used, utilization, temperature) equal
to 0. -/
theorem C3_gpu_detect_sentinel (env : GpuEnv) :
    GPUDetector.detect env ≠ [] ∧
    (GPUDetector.detect_nvidia env = [] → GPUDetector.detect_amd env = [] →
      GPUDetector.detect_intel env = [] → GPUDetector.detect_wmi env = [] →
      GPUDetector.detect env = [{ vendor := "Unknown",
                                  name := "No dedicated GPU detected",
                                  vram_total_gb := 0, vram_used_gb := 0,
                                  utilization_percent := 0,
                                  temperature_c := some 0 }]) := by
  constructor
  · by_cases hge : (GPUDetector.gpus_with_fallback env).isEmpty
    · unfold GPUDetector.detect
      rw [if_pos hge]
      intro hnil
      simpa using congrArg List.length hnil
    · unfold GPUDetector.detect
      rw [if_neg hge]
      intro hnil
      exact hge (by simp [hnil])
  · intro h1 h2 h3 h4
    have hpre : GPUDetector.gpus_pre env = [] := by
      unfold GPUDetector.gpus_pre
      rw [h1, h2, h3]
      rfl
    have hgwf : GPUDetector.gpus_with_fallback env = [] := by
      unfold GPUDetector.gpus_with_fallback
      rw [hpre, h4]
      split
      · rfl
      · rfl
    unfold GPUDetector.detect
    rw [hgwf]
    rfl

/-- Host with no vendor tool, not Windows: the all-empty case for the C3
witness. -/
def gpuEnvNone : GpuEnv :=
  { which := fun _ => false
    cmd := fun _ _ => .fileNotFound
    wmi_available := false
    sys_platform := "linux"
    wmi_video := [] }

/-- Witness for C3: on a host with no vendor tool at all the probe returns
exactly the sentinel record. -/
theorem C3_gpu_detect_sentinel_witness :
    GPUDetector.detect gpuEnvNone ≠ [] ∧
    GPUDetector.detect gpuEnvNone = [{ vendor := "Unknown",
                                       name := "No dedicated GPU detected",
                                       vram_total_gb := 0, vram_used_gb := 0,
                                       utilization_percent := 0,
                                       temperature_c := some 0 }] := by
  have h := C3_gpu_detect_sentinel gpuEnvNone
  exact ⟨h.1, h.2 rfl rfl rfl rfl⟩

end LLMNeofetch

namespace LLMNeofetch

/-- Every GPU record produced by the nvidia-smi line parser carries vendor
`"NVIDIA"`. -/
theorem parseNvidiaLine_vendor (line : String) (g : GpuInfo)
    (h : parseNvidiaLine line = some g) : g.vendor = "NVIDIA" := by
  unfold parseNvidiaLine at h
  split at h
  · obtain ⟨q, -, hq⟩ := Option.map_eq_some'.mp h
    rw [← hq]
  · exact Option.noConfusion h

/-- Every GPU record produced by the WMI controller parser carries vendor
`"Integrated/Discrete"`. -/
theorem parseWmiController_vendor (v : VideoController) (g : GpuInfo)
    (h : parseWmiController v = some g) : g.vendor = "Integrated/Discrete" := by
  unfold parseWmiController at h
  split at h
  · cases h; rfl
  · exact Option.noConfusion h

/-- Vendors appearing in the NVIDIA sub-probe result. -/
theorem detect_nvidia_vendor (env : GpuEnv) :
    ∀ x ∈ GPUDetector.detect_nvidia env, x.vendor = "NVIDIA" := by
  intro x hx
  unfold GPUDetector.detect_nvidia at hx
  split at hx
  · exact absurd hx (List.not_mem_nil x)
  · unfold GPUDetector.nvidiaFromOutput at hx
    split at hx
    · exact absurd hx (List.not_mem_nil x)
    · obtain ⟨line, -, hparse⟩ := List.mem_filterMap.mp hx
      exact parseNvidiaLine_vendor line x hparse

/-- Vendors appearing in the AMD sub-probe result. -/
theorem detect_amd_vendor (env : GpuEnv) :
    ∀ x ∈ GPUDetector.detect_amd env, x.vendor = "AMD" := by
  intro x hx
  unfold GPUDetector.detect_amd at hx
  split at hx
  · exact absurd hx (List.not_mem_nil x)
  · unfold GPUDetector.amdFromOutput at hx
    split at hx
    · exact absurd hx (List.not_mem_nil x)
    · rw [List.mem_singleton.mp hx]

/-- Vendors appearing in the Intel sub-probe result. -/
theorem detect_intel_vendor (env : GpuEnv) :
    ∀ x ∈ GPUDetector.detect_intel env, x.vendor = "Intel" := by
  intro x hx
  unfold GPUDetector.detect_intel at hx
  split at hx
  · split at hx
    · rw [List.mem_singleton.mp hx]
    · exact absurd hx (List.not_mem_nil x)
  · exact absurd hx (List.not_mem_nil x)

/-- Vendors appearing in the WMI fallback result. -/
theorem detect_wmi_vendor (env : GpuEnv) :
    ∀ x ∈ GPUDetector.detect_wmi env, x.vendor = "Integrated/Discrete" := by
  intro x hx
  obtain ⟨v, -, hparse⟩ := List.mem_filterMap.mp hx
  exact parseWmiController_vendor v x hparse

/-- Concrete Windows host whose WMI enumeration yields one NVIDIA-branded
controller while all vendor tools are absent. -/
def gpuEnvWmi : GpuEnv :=
  { which := fun _ => false
    cmd := fun _ _ => .fileNotFound
    wmi_available := true
    sys_platform := "win32"
    wmi_video := [{ name := "NVIDIA GeForce RTX 3060", adapterRAM := some 12884901888 }] }

/-- Counterexample for C9 as stated: on the Windows device-enumeration
fallback path the emitted record carries vendor `"Integrated/Discrete"`,
which is neither a member of the fixed vendor set nor `"Unknown"`. -/
theorem C9_gpu_vendor_counterexample :
    (GPUDetector.detect gpuEnvWmi).map (fun g => g.vendor) = ["Integrated/Discrete"] ∧
    "Integrated/Discrete" ∉ (["NVIDIA", "AMD", "Intel", "Unknown"] : List String) := by
  constructor
  · rfl
  · decide

/-- C9 (amended): every GPU record returned by `GPUDetector.detect`, on
every path, has a vendor field drawn from `"NVIDIA"`, `"AMD"`, `"Intel"`,
`"Unknown"`, or — on the Windows device-enumeration fallback —
`"Integrated/Discrete"`. -/
theorem C9_gpu_vendor_amended (env : GpuEnv) (g : GpuInfo)
    (hg : g ∈ GPUDetector.detect env) :
    g.vendor ∈ (["NVIDIA", "AMD", "Intel", "Unknown", "Integrated/Discrete"] : List String) := by
  have hpre : ∀ x ∈ GPUDetector.gpus_pre env,
      x.vendor = "NVIDIA" ∨ x.vendor = "AMD" ∨ x.vendor = "Intel" := by
    intro x hx
    rcases List.mem_append.mp hx with hx' | hx'
    · rcases List.mem_append.mp hx' with hx'' | hx''
      · exact Or.inl (detect_nvidia_vendor env x hx'')
      · exact Or.inr (Or.inl (detect_amd_vendor env x hx''))
    · exact Or.inr (Or.inr (detect_intel_vendor env x hx'))
  have hgwf : ∀ x ∈ GPUDetector.gpus_with_fallback env,
      x.vendor = "NVIDIA" ∨ x.vendor = "AMD" ∨ x.vendor = "Intel" ∨
        x.vendor = "Integrated/Discrete" := by
    intro x hx
    unfold GPUDetector.gpus_with_fallback at hx
    split at hx
    · rcases List.mem_append.mp hx with hx' | hx'
      · rcases hpre x hx' with h | h | h
        · exact Or.inl h
        · exact Or.inr (Or.inl h)
        · exact Or.inr (Or.inr (Or.inl h))
      · exact Or.inr (Or.inr (Or.inr (detect_wmi_vendor env x hx')))
    · rcases hpre x hx with h | h | h
      · exact Or.inl h
      · exact Or.inr (Or.inl h)
      · exact Or.inr (Or.inr (Or.inl h))
  unfold GPUDetector.detect at hg
  have hcases : g.vendor = "NVIDIA" ∨ g.vendor = "AMD" ∨ g.vendor = "Intel" ∨
      g.vendor = "Integrated/Discrete" ∨ g.vendor = "Unknown" := by
    split at hg
    · rcases List.mem_append.mp hg with hx' | hx'
      · rcases hgwf g hx' with h | h | h | h
        · exact Or.inl h
        · exact Or.inr (Or.inl h)
        · exact Or.inr (Or.inr (Or.inl h))
        · exact Or.inr (Or.inr (Or.inr (Or.inl h)))
      · rw [List.mem_singleton.mp hx']
        exact Or.inr (Or.inr (Or.inr (Or.inr rfl)))
    · rcases hgwf g hg with h | h | h | h
      · exact Or.inl h
      · exact Or.inr (Or.inl h)
      · exact Or.inr (Or.inr (Or.inl h))
      · exact Or.inr (Or.inr (Or.inr (Or.inl h)))
  rcases hcases with h | h | h | h | h
  all_goals simp [h]

/-- Witness for the amended C9: the sentinel returned on a tool-less host
has its vendor in the five-element set. -/
theorem C9_gpu_vendor_amended_witness :
    noGpuSentinel ∈ GPUDetector.detect gpuEnvNone ∧
    noGpuSentinel.vendor ∈
      (["NVIDIA", "AMD", "Intel", "Unknown", "Integrated/Discrete"] : List String) := by
  have hmem : noGpuSentinel ∈ GPUDetector.detect gpuEnvNone := by decide
  exact ⟨hmem, C9_gpu_vendor_amended gpuEnvNone noGpuSentinel hmem⟩

end LLMNeofetch

namespace LLMNeofetch

/-- One entry of `psutil.disk_partitions(all=False)`. -/
structure Partition where
  device : String
  mountpoint : String
  fstype : String
  opts : String
deriving DecidableEq

/-- One `psutil.disk_usage` result. -/
structure Usage where
  total : Nat
  used : Nat
  free : Nat
  percent : ℚ
deriving DecidableEq

/-- The dictionary returned by `DiskDetector.benchmark_speed`
(src/src/detectors.py:484-487). -/
structure BenchResult where
  read_mb_s : ℚ
  write_mb_s : ℚ
deriving DecidableEq

/-- One disk record built by `DiskDetector.detect`
(src/src/detectors.py:393-403); the `benchmark` field models the key the
collector may attach afterwards (llm_neofetch.py:147). -/
structure DiskInfo where
  mountpoint : String
  device : String
  fstype : String
  total_bytes : Nat
  used_bytes : Nat
  free_bytes : Nat
  percent : ℚ
  type : String
  is_system : Bool
  benchmark : Option BenchResult
deriving DecidableEq

/-- Host facilities read by `DiskDetector`: the partition table, the
per-mountpoint `psutil.disk_usage` outcome (an `Except.error` models that
call raising; the source catches only `PermissionError`), `sys.platform`,
and the content of `/sys/block/NAME/queue/rotational` (`none` models any
read failure, all of which the source catches). -/
structure DiskEnv where
  partitions : List Partition
  usage : String → Except PyExc Usage
  sys_platform : String
  rotational : String → Option String

/-- Whether a character is in the regex class a-z. -/
def isLowerAZ (c : Char) : Bool :=
  'a' ≤ c && c ≤ 'z'

/-- Model of `re.search` for the pattern `/dev/([a-z]+)` over the lowered
device path (src/src/detectors.py:430): leftmost position where the
literal `/dev/` is followed by at least one character of `[a-z]`; the
captured group is the maximal such run. -/
def devSearch : List Char → Option String
  | [] => none
  | c :: cs =>
    if ['/', 'd', 'e', 'v', '/'].isPrefixOf (c :: cs) ∧
        ((c :: cs).drop 5).takeWhile isLowerAZ ≠ [] then
      some (String.mk (((c :: cs).drop 5).takeWhile isLowerAZ))
    else devSearch cs

/-- Embedding of `DiskDetector._detect_disk_type`
(src/src/detectors.py:414-444). -/
def DiskDetector.detect_disk_type (env : DiskEnv) (device : String) : String :=
  if pyIn "nvme" (pyLower device) = true then "NVMe"
  else if pyStartsWith env.sys_platform "linux" = true then
    match devSearch (pyLower device).data with
    | some dev_name =>
      match env.rotational dev_name with
      | some content => if pyStrip content = "0" then "SSD" else "HDD"
      | none => if pyIn "ssd" (pyLower device) = true then "SSD" else "Unknown"
    | none => if pyIn "ssd" (pyLower device) = true then "SSD" else "Unknown"
  else if pyIn "ssd" (pyLower device) = true then "SSD" else "Unknown"

/-- The record built for one readable partition
(src/src/detectors.py:383-403). -/
def DiskDetector.partitionInfo (env : DiskEnv) (p : Partition) (u : Usage) : DiskInfo :=
  { mountpoint := p.mountpoint, device := p.device, fstype := p.fstype,
    total_bytes := u.total, used_bytes := u.used, free_bytes := u.free,
    percent := u.percent,
    type := DiskDetector.detect_disk_type env p.device,
    is_system := (p.mountpoint == "/" || p.mountpoint == "C:\\") || pyIn "Windows" p.opts,
    benchmark := none }

/-- The enumeration loop of `DiskDetector.detect`
(src/src/detectors.py:379-408): skip empty-fstype and loop partitions,
skip a partition whose usage read raises `PermissionError`, propagate any
other exception. -/
def DiskDetector.enumerate (env : DiskEnv) : List Partition → Except PyExc (List DiskInfo)
  | [] => .ok []
  | p :: ps =>
    if p.fstype = "" ∨ pyIn "loop" p.device = true then DiskDetector.enumerate env ps
    else
      match env.usage p.mountpoint with
      | .error .permissionError => DiskDetector.enumerate env ps
      | .error e => .error e
      | .ok u => do
        let rest ← DiskDetector.enumerate env ps
        .ok (DiskDetector.partitionInfo env p u :: rest)

/-- Numeric encoding of the first sort-key component
`not x["is_system"]` (src/src/detectors.py:410): `False < True`. -/
def natKey (d : DiskInfo) : Nat :=
  if d.is_system then 0 else 1

/-- The total preorder corresponding to Python ascending sort by the key
tuple `(not is_system, mountpoint)`. -/
def diskLe (a b : DiskInfo) : Bool :=
  decide (natKey a < natKey b ∨ (natKey a = natKey b ∧ a.mountpoint ≤ b.mountpoint))

/-- Embedding of `DiskDetector.detect` (src/src/detectors.py:369-412):
enumerate, stable-sort by `(not is_system, mountpoint)` (Python list.sort
is a stable sort, modelled by `List.mergeSort`), truncate to 3. -/
def DiskDetector.detect (env : DiskEnv) : Except PyExc (List DiskInfo) :=
  (DiskDetector.enumerate env env.partitions).map
    (fun disks => (disks.mergeSort diskLe).take 3)

theorem diskLe_trans (a b c : DiskInfo) (hab : diskLe a b) (hbc : diskLe b c) :
    diskLe a c := by
  simp only [diskLe, decide_eq_true_eq] at *
  rcases hab with h1 | ⟨h1, h1s⟩ <;> rcases hbc with h2 | ⟨h2, h2s⟩
  · exact Or.inl (h1.trans h2)
  · exact Or.inl (h2 ▸ h1)
  · exact Or.inl (h1 ▸ h2)
  · exact Or.inr ⟨h1.trans h2, le_trans h1s h2s⟩

theorem diskLe_total (a b : DiskInfo) : diskLe a b || diskLe b a := by
  simp only [diskLe, Bool.or_eq_true, decide_eq_true_eq]
  rcases Nat.lt_trichotomy (natKey a) (natKey b) with h | h | h
  · exact Or.inl (Or.inl h)
  · rcases le_total a.mountpoint b.mountpoint with hs | hs
    · exact Or.inl (Or.inr ⟨h, hs⟩)
    · exact Or.inr (Or.inr ⟨h.symm, hs⟩)
  · exact Or.inr (Or.inl h)

/-- A record below a system volume in the `diskLe` order is itself a
system volume. -/
theorem diskLe_system (x d : DiskInfo) (h : diskLe x d) (hd : d.is_system = true) :
    x.is_system = true := by
  simp only [diskLe, decide_eq_true_eq] at h
  by_cases hx : x.is_system = true
  · exact hx
  · exfalso
    have hkx : natKey x = 1 := by simp [natKey, hx]
    have hkd : natKey d = 0 := by simp [natKey, hd]
    rcases h with h | ⟨h, -⟩
    · omega
    · omega

end LLMNeofetch

namespace LLMNeofetch

/-- C5: `DiskDetector.detect` returns at most 3 entries, sorted ascending
by the key `(not is_system, mount_path)` (system volumes first, ties by
mount path); whenever at least one enumerated volume is a system volume,
the entry at index 0 is a system volume. -/
theorem C5_disk_detect_sorted (env : DiskEnv) (dl : List DiskInfo)
    (h : DiskDetector.enumerate env env.partitions = .ok dl) :
    DiskDetector.detect env = .ok ((dl.mergeSort diskLe).take 3) ∧
    ((dl.mergeSort diskLe).take 3).length ≤ 3 ∧
    ((dl.mergeSort diskLe).take 3).Pairwise (fun a b => diskLe a b = true) ∧
    ((∃ d ∈ dl, d.is_system = true) →
      ∃ d0, ((dl.mergeSort diskLe).take 3).head? = some d0 ∧ d0.is_system = true) := by
  refine ⟨?_, ?_, ?_, ?_⟩
  · unfold DiskDetector.detect
    rw [h]
    rfl
  · simp [List.length_take]
  · exact List.Pairwise.sublist (List.take_sublist 3 _)
      (List.sorted_mergeSort diskLe_trans diskLe_total dl)
  · rintro ⟨d, hd, hdsys⟩
    have hmem : d ∈ dl.mergeSort diskLe := List.mem_mergeSort.mpr hd
    cases hms : dl.mergeSort diskLe with
    | nil => rw [hms] at hmem; exact absurd hmem (List.not_mem_nil d)
    | cons d0 rest =>
      refine ⟨d0, rfl, ?_⟩
      rw [hms] at hmem
      rcases List.mem_cons.mp hmem with hcase | hcase
      · rw [← hcase]; exact hdsys
      · have hpair := List.sorted_mergeSort diskLe_trans diskLe_total dl
        rw [hms] at hpair
        have hle : diskLe d0 d = true := (List.pairwise_cons.mp hpair).1 d hcase
        exact diskLe_system d0 d hle hdsys

/-- Concrete host for the C5 witness: a non-system data volume enumerated
before the system root volume. -/
def diskEnvC5 : DiskEnv :=
  { partitions := [{ device := "/dev/sdb1", mountpoint := "/data", fstype := "ext4", opts := "rw" },
                   { device := "/dev/sda1", mountpoint := "/", fstype := "ext4", opts := "rw" }]
    usage := fun _ => .ok { total := 1000, used := 400, free := 600, percent := 40 }
    sys_platform := "linux"
    rotational := fun _ => some "0\n" }

/-- The list `DiskDetector.enumerate` produces on `diskEnvC5`. -/
def dlC5 : List DiskInfo :=
  [{ mountpoint := "/data", device := "/dev/sdb1", fstype := "ext4",
     total_bytes := 1000, used_bytes := 400, free_bytes := 600, percent := 40,
     type := "SSD", is_system := false, benchmark := none },
   { mountpoint := "/", device := "/dev/sda1", fstype := "ext4",
     total_bytes := 1000, used_bytes := 400, free_bytes := 600, percent := 40,
     type := "SSD", is_system := true, benchmark := none }]

/-- Witness for C5: with a system volume present, the sorted truncated
result puts it at index 0. -/
theorem C5_disk_detect_sorted_witness :
    (∃ d ∈ dlC5, d.is_system = true) ∧
    DiskDetector.detect diskEnvC5 = .ok ((dlC5.mergeSort diskLe).take 3) ∧
    ∃ d0, ((dlC5.mergeSort diskLe).take 3).head? = some d0 ∧ d0.is_system = true := by
  have h := C5_disk_detect_sorted diskEnvC5 dlC5 (by rfl)
  exact ⟨by decide, h.1, h.2.2.2 (by decide)⟩

end LLMNeofetch

namespace LLMNeofetch

/-- C6: storage-type classification returns `"NVMe"` whenever the device
path contains `"nvme"`, regardless of platform and rotational-flag
content; otherwise on the Linux family the base device rotational
pseudo-file decides (`"0"` means SSD, any other content means HDD), with
read failure falling through; otherwise a path containing `"ssd"` yields
`"SSD"`; otherwise `"Unknown"`. -/
theorem C6_disk_type_classification (env : DiskEnv) (device : String) :
    (pyIn "nvme" (pyLower device) = true →
      DiskDetector.detect_disk_type env device = "NVMe") ∧
    (pyIn "nvme" (pyLower device) = false →
      pyStartsWith env.sys_platform "linux" = true →
      ∀ d c, devSearch (pyLower device).data = some d → env.rotational d = some c →
        DiskDetector.detect_disk_type env device =
          (if pyStrip c = "0" then "SSD" else "HDD")) ∧
    (pyIn "nvme" (pyLower device) = false →
      (pyStartsWith env.sys_platform "linux" = false ∨
        devSearch (pyLower device).data = none ∨
        (∃ d, devSearch (pyLower device).data = some d ∧ env.rotational d = none)) →
      DiskDetector.detect_disk_type env device =
        (if pyIn "ssd" (pyLower device) = true then "SSD" else "Unknown")) := by
  refine ⟨?_, ?_, ?_⟩
  · intro hnvme
    unfold DiskDetector.detect_disk_type
    rw [if_pos hnvme]
  · intro hnvme hlinux d c hdev hrot
    unfold DiskDetector.detect_disk_type
    simp [hnvme, hlinux, hdev, hrot]
  · intro hnvme hfall
    unfold DiskDetector.detect_disk_type
    rcases hfall with hlin | hdev | ⟨d, hdev, hrot⟩
    · simp [hnvme, hlin]
    · simp [hnvme, hdev]
    · simp [hnvme, hdev, hrot]

/-- Linux host whose rotational pseudo-file reports a spinning device. -/
def diskEnvRotating : DiskEnv :=
  { partitions := []
    usage := fun _ => .ok { total := 0, used := 0, free := 0, percent := 0 }
    sys_platform := "linux"
    rotational := fun d => if d = "sda" then some "1\n" else none }

/-- Witness for C6: an nvme path classifies `"NVMe"` even on Linux with a
rotational flag present; a rotating `/dev/sda1` classifies `"HDD"`; on a
non-Linux host a path containing `"ssd"` classifies `"SSD"`. -/
theorem C6_disk_type_classification_witness :
    DiskDetector.detect_disk_type diskEnvRotating "/dev/nvme0n1p1" = "NVMe" ∧
    DiskDetector.detect_disk_type diskEnvRotating "/dev/sda1" = "HDD" ∧
    DiskDetector.detect_disk_type { diskEnvRotating with sys_platform := "win32" }
      "/dev/ssd_disk1" = "SSD" := by
  refine ⟨?_, ?_, ?_⟩
  · exact (C6_disk_type_classification diskEnvRotating "/dev/nvme0n1p1").1 (by decide)
  · have h := (C6_disk_type_classification diskEnvRotating "/dev/sda1").2.1
      (by decide) (by decide) "sda" "1\n" (by decide) (by decide)
    rw [h]
    decide
  · have h := (C6_disk_type_classification
      { diskEnvRotating with sys_platform := "win32" } "/dev/ssd_disk1").2.2
      (by decide) (Or.inl (by decide))
    rw [h]
    decide

end LLMNeofetch

namespace LLMNeofetch

/-- Outcome of the write phase of the disk benchmark
(src/src/detectors.py:466-472): either completion with its wall time, or
an exception with a flag recording whether the temp file had already been
created when the exception was raised. -/
inductive WriteOutcome where
  | completed (write_time : ℚ)
  | raised (created : Bool)
deriving DecidableEq

/-- Host state for one `benchmark_speed` call: the write-phase outcome,
the read-phase outcome (`none` models the read raising) with its wall
time, and whether each of the two `os.remove` sites succeeds (the one on
the success path, line 482, and the best-effort one inside the exception
handler, line 493). -/
structure BenchEnv where
  write : WriteOutcome
  read : Option ℚ
  remove_ok : Bool
  cleanup_ok : Bool
deriving DecidableEq

/-- Embedding of `DiskDetector.benchmark_speed`
(src/src/detectors.py:446-496), paired with the post-state of the
temporary benchmark file: the second component is `true` iff
`.llm_neofetch_benchmark.tmp` still exists in the target directory after
the call returns. Tracing the source: on a write exception the handler
removes the file if it was created and removal succeeds; when
`write_time > timeout` the function returns `None` immediately with no
removal; a read exception or a failing success-path removal lands in the
handler, which attempts best-effort removal. -/
def DiskDetector.benchmark_speed (env : BenchEnv) (size_mb : ℚ) (timeout : ℚ) :
    Option BenchResult × Bool :=
  match env.write with
  | .raised created => (none, created && !env.cleanup_ok)
  | .completed write_time =>
    if write_time > timeout then (none, true)
    else
      match env.read with
      | none => (none, !env.cleanup_ok)
      | some read_time =>
        if env.remove_ok then
          (some { read_mb_s := if read_time > 0 then size_mb / read_time else 0,
                  write_mb_s := if write_time > 0 then size_mb / write_time else 0 },
           false)
        else (none, !env.cleanup_ok)

/-- Host state where the write completes but takes 31 seconds against a
30-second timeout; reads and removals would all succeed. -/
def benchEnvTimeout : BenchEnv :=
  { write := .completed 31, read := some 1, remove_ok := true, cleanup_ok := true }

/-- C4 (code bug): when the write phase alone exceeds the timeout,
`benchmark_speed` returns absent via the early `return None` of line 475
without ever deleting the temp file, so the temporary benchmark file
still exists after the call — contradicting the documented always-delete
contract. -/
theorem C4_benchmark_timeout_leaves_file :
    DiskDetector.benchmark_speed benchEnvTimeout 100 30 = (none, true) := by
  decide

end LLMNeofetch

namespace LLMNeofetch

/-- The `psutil.virtual_memory()` and `psutil.swap_memory()` readings. -/
structure MemoryRaw where
  ram_total : Nat
  ram_available : Nat
  ram_used : Nat
  ram_percent : ℚ
  swap_total : Nat
  swap_used : Nat
  swap_percent : ℚ
deriving DecidableEq

/-- The dictionary returned by `MemoryDetector.detect`
(src/src/detectors.py:345-363). -/
structure MemoryInfo where
  ram_total_bytes : Nat
  ram_available_bytes : Nat
  ram_used_bytes : Nat
  ram_percent : ℚ
  swap_total_bytes : Nat
  swap_used_bytes : Nat
  swap_percent : ℚ
deriving DecidableEq

/-- Embedding of `MemoryDetector.detect` (src/src/detectors.py:345-363):
a direct read of the host memory statistics, no fallback chain. -/
def MemoryDetector.detect (env : MemoryRaw) : MemoryInfo :=
  { ram_total_bytes := env.ram_total, ram_available_bytes := env.ram_available,
    ram_used_bytes := env.ram_used, ram_percent := env.ram_percent,
    swap_total_bytes := env.swap_total, swap_used_bytes := env.swap_used,
    swap_percent := env.swap_percent }

/-- The `psutil.sensors_battery()` reading when a battery is present. -/
structure BatteryRaw where
  percent : ℚ
  power_plugged : Bool
  secsleft : Int
deriving DecidableEq

/-- The psutil sentinel `POWER_TIME_UNLIMITED` (-2). -/
def POWER_TIME_UNLIMITED : Int := -2

/-- The psutil sentinel `POWER_TIME_UNKNOWN` (-1). -/
def POWER_TIME_UNKNOWN : Int := -1

/-- The dictionary returned by `BatteryDetector.detect`
(src/src/detectors.py:525-530). -/
structure BatteryInfo where
  percent : ℚ
  plugged : Bool
  time_left : String
  time_left_seconds : Int
deriving DecidableEq

/-- Embedding of `BatteryDetector.detect` (src/src/detectors.py:499-533).
The environment value `none` models both a host with no battery sensor
and the call raising (the source catches every exception and returns
`None` either way). Python floor division and modulo on the remaining
seconds are modelled by `Int.fdiv` and `Int.fmod`. -/
def BatteryDetector.detect (env : Option BatteryRaw) : Option BatteryInfo :=
  match env with
  | none => none
  | some b =>
    some { percent := b.percent, plugged := b.power_plugged,
           time_left :=
             if b.power_plugged then "Charging"
             else if b.secsleft = POWER_TIME_UNLIMITED then "Unlimited"
             else if b.secsleft = POWER_TIME_UNKNOWN then "Unknown"
             else toString (b.secsleft.fdiv 3600) ++ "h " ++
               toString ((b.secsleft.fmod 3600).fdiv 60) ++ "m",
           time_left_seconds := if b.secsleft ≥ 0 then b.secsleft else 0 }

/-- One `Win32_BaseBoard` record. -/
structure BaseBoard where
  manufacturer : String
  product : String
deriving DecidableEq

/-- Host facilities read by `MotherboardDetector`: WMI importability,
`sys.platform`, the base boards yielded by the WMI enumeration before any
internal failure (an exception there is caught and falls through), and
the shell for the Linux DMI pseudo-file reads. -/
structure MbEnv where
  wmi_available : Bool
  sys_platform : String
  wmi_boards : List BaseBoard
  cmd : CmdEnv

/-- Embedding of `MotherboardDetector.detect`
(src/src/detectors.py:536-566): the Windows branch returns on the first
base board; with no board (or after a caught exception) control falls to
the Linux branch, which joins the two DMI pseudo-file reads when both are
non-empty; otherwise `"N/A"`. -/
def MotherboardDetector.detect (env : MbEnv) : String :=
  match (if env.wmi_available = true ∧ pyStartsWith env.sys_platform "win" = true
         then env.wmi_boards.head? else none) with
  | some board => pyStrip board.manufacturer ++ " " ++ pyStrip board.product
  | none =>
    if pyStartsWith env.sys_platform "linux" = true then
      if BaseDetector.run_command env.cmd "cat /sys/class/dmi/id/board_vendor 2>/dev/null" 5 ≠ "" ∧
          BaseDetector.run_command env.cmd "cat /sys/class/dmi/id/board_name 2>/dev/null" 5 ≠ "" then
        BaseDetector.run_command env.cmd "cat /sys/class/dmi/id/board_vendor 2>/dev/null" 5 ++
          " " ++ BaseDetector.run_command env.cmd "cat /sys/class/dmi/id/board_name 2>/dev/null" 5
      else "N/A"
    else "N/A"

/-- Host facilities read by `AppleSiliconDetector`. -/
structure AppleEnv where
  sys_platform : String
  cmd : CmdEnv

/-- The dictionary returned by `AppleSiliconDetector.detect`
(src/src/detectors.py:596-601). -/
structure AppleSiliconInfo where
  chip : String
  variant : String
  unified_memory_gb : ℚ
  supports_mlx : Bool
deriving DecidableEq

/-- The variant scan of `AppleSiliconDetector.detect`
(src/src/detectors.py:590-594): first tag of the ordered list contained
in the brand string wins, else `"Unknown"`. -/
def appleVariant (chip : String) : List String → String
  | [] => "Unknown"
  | v :: vs => if pyIn v chip = true then v else appleVariant chip vs

/-- Embedding of `AppleSiliconDetector.detect`
(src/src/detectors.py:569-601). `String.toNat?` models the
`isdigit`-guarded `int()` conversion: it parses exactly the non-empty
all-digit strings. -/
def AppleSiliconDetector.detect (env : AppleEnv) : Option AppleSiliconInfo :=
  if env.sys_platform ≠ "darwin" then none
  else
    if BaseDetector.run_command env.cmd "sysctl -n machdep.cpu.brand_string" 5 = "" ∨
        pyIn "Apple" (BaseDetector.run_command env.cmd "sysctl -n machdep.cpu.brand_string" 5) = false then
      none
    else
      some { chip := BaseDetector.run_command env.cmd "sysctl -n machdep.cpu.brand_string" 5,
             variant := appleVariant
               (BaseDetector.run_command env.cmd "sysctl -n machdep.cpu.brand_string" 5)
               ["M1", "M2", "M3", "M4"],
             unified_memory_gb :=
               match (BaseDetector.run_command env.cmd "sysctl -n hw.memsize" 5).toNat? with
               | some n => (n : ℚ) / 1024 ^ 3
               | none => 0,
             supports_mlx := true }

/-- Aggregate host state for one collection cycle. -/
structure Env where
  timestamp : String
  os : OsEnv
  uptime_seconds : Nat
  cpu : CpuEnv
  gpu : GpuEnv
  memory : MemoryRaw
  disk : DiskEnv
  battery : Option BatteryRaw
  motherboard : MbEnv
  apple : AppleEnv
  bench : BenchEnv

/-- The aggregate snapshot assembled by `LLMNeofetch.collect_system_info`
(llm_neofetch.py:114-149); the `apple_silicon` key is attached only when
that probe returned a record, modelled by the `Option`. -/
structure SystemInfo where
  timestamp : String
  os : OsInfo
  uptime : UptimeInfo
  cpu : CpuInfo
  gpus : List GpuInfo
  memory : MemoryInfo
  disks : List DiskInfo
  battery : Option BatteryInfo
  motherboard : String
  apple_silicon : Option AppleSiliconInfo
deriving DecidableEq

/-- Attach of the benchmark result to the first (highest-priority) disk
entry (llm_neofetch.py:139-147): only when a result was produced. -/
def attachBenchmark (disks : List DiskInfo) (bench : Option BenchResult) : List DiskInfo :=
  match disks, bench with
  | d :: rest, some r => { d with benchmark := some r } :: rest
  | ds, _ => ds

/-- Embedding of `LLMNeofetch.collect_system_info`
(llm_neofetch.py:114-149): every probe is invoked unconditionally; an
exception escaping a probe would propagate out of the collector, which
the `Except` captures. The benchmark runs only when requested and at
least one disk was enumerated, against the first disk. -/
def collect_system_info (env : Env) (benchmark : Bool) : Except PyExc SystemInfo := do
  let cpu ← CPUDetector.detect env.cpu
  let disks ← DiskDetector.detect env.disk
  let disks :=
    if benchmark = true ∧ disks ≠ [] then
      attachBenchmark disks (DiskDetector.benchmark_speed env.bench 100 30).1
    else disks
  .ok { timestamp := env.timestamp,
        os := OSDetector.detect env.os,
        uptime := OSDetector.get_uptime env.uptime_seconds,
        cpu := cpu,
        gpus := GPUDetector.detect env.gpu,
        memory := MemoryDetector.detect env.memory,
        disks := disks,
        battery := BatteryDetector.detect env.battery,
        motherboard := MotherboardDetector.detect env.motherboard,
        apple_silicon := AppleSiliconDetector.detect env.apple }

/-- The host-state taxonomy of the spec: internal detection failures are
permission-denied volume reads and the sensor-facility failures the
source catches (`AttributeError`, `KeyError`); every other environment
channel already carries its failure modes totally. -/
def ModeledHost (env : Env) : Prop :=
  (∀ mp e, env.disk.usage mp = .error e → e = .permissionError) ∧
  (∀ e, env.cpu.sensors = .error e → e = .attributeError ∨ e = .keyError)

/-- Under the modeled sensor failure modes, the CPU probe never lets an
exception escape. -/
theorem cpu_detect_ok (env : CpuEnv)
    (h : ∀ e, env.sensors = .error e → e = .attributeError ∨ e = .keyError) :
    ∃ c, CPUDetector.detect env = .ok c := by
  have htemp : ∃ t, CPUDetector.get_temperature env = .ok t := by
    unfold CPUDetector.get_temperature
    cases hs : env.sensors with
    | error e =>
      rcases h e hs with he | he <;> rw [he] <;> exact ⟨none, rfl⟩
    | ok temps => exact ⟨tempsFromDict temps, rfl⟩
  obtain ⟨t, ht⟩ := htemp
  cases hd : CPUDetector.detect env with
  | ok c => exact ⟨c, rfl⟩
  | error e =>
    exfalso
    unfold CPUDetector.detect at hd
    rw [ht] at hd
    simp only [Bind.bind, Except.bind] at hd
    exact Except.noConfusion hd

/-- Under the modeled usage failure mode (permission denial only), the
disk enumeration skips the offending partition and never lets an
exception escape. -/
theorem disk_enumerate_ok (env : DiskEnv)
    (h : ∀ mp e, env.usage mp = .error e → e = .permissionError) :
    ∀ ps, ∃ dl, DiskDetector.enumerate env ps = .ok dl := by
  intro ps
  induction ps with
  | nil => exact ⟨[], rfl⟩
  | cons p ps ih =>
    obtain ⟨dl, hdl⟩ := ih
    unfold DiskDetector.enumerate
    by_cases hskip : p.fstype = "" ∨ pyIn "loop" p.device = true
    · rw [if_pos hskip]
      exact ⟨dl, hdl⟩
    · rw [if_neg hskip]
      cases hu : env.usage p.mountpoint with
      | error e =>
        rw [h p.mountpoint e hu]
        exact ⟨dl, hdl⟩
      | ok u =>
        refine ⟨DiskDetector.partitionInfo env p u :: dl, ?_⟩
        rw [hdl]
        rfl

/-- C1: for every modeled host state, no internal detection failure
propagates past any probe boundary as an exception, so the aggregate
snapshot assembled by the collector is always constructible and
schema-complete. -/
theorem C1_collect_schema_total (env : Env) (b : Bool) (h : ModeledHost env) :
    ∃ s, collect_system_info env b = .ok s := by
  obtain ⟨c, hc⟩ := cpu_detect_ok env.cpu h.2
  obtain ⟨dl, hdl⟩ := disk_enumerate_ok env.disk h.1 env.disk.partitions
  have hdisk : DiskDetector.detect env.disk = .ok ((dl.mergeSort diskLe).take 3) := by
    unfold DiskDetector.detect
    rw [hdl]
    rfl
  cases hres : collect_system_info env b with
  | ok s => exact ⟨s, rfl⟩
  | error e =>
    exfalso
    unfold collect_system_info at hres
    rw [hc] at hres
    simp only [Bind.bind, Except.bind] at hres
    rw [hdisk] at hres
    simp only [] at hres
    exact Except.noConfusion hres

/-- Concrete Linux host for the C1 witness: every facility healthy. -/
def envC1 : Env :=
  { timestamp := "2025-01-01T00:00:00"
    os := { system := "Linux", release := "6.1.0", version := "#1 SMP",
            machine := "x86_64", platform_str := "Linux-6.1.0-x86_64",
            python_version := "3.11.0" }
    uptime_seconds := 90061
    cpu := { platform_processor := "AMD Ryzen 7", uname_processor := "",
             sys_platform := "linux", cmd := fun _ _ => .fileNotFound,
             cores_physical := some 8, cores_logical := some 16,
             freq := some (3500, 4900), cpu_percent := 12,
             sensors := .ok [("k10temp", [45])] }
    gpu := gpuEnvNone
    memory := { ram_total := 34359738368, ram_available := 20000000000,
                ram_used := 14359738368, ram_percent := 41,
                swap_total := 0, swap_used := 0, swap_percent := 0 }
    disk := diskEnvC5
    battery := none
    motherboard := { wmi_available := false, sys_platform := "linux",
                     wmi_boards := [], cmd := fun _ _ => .fileNotFound }
    apple := { sys_platform := "linux", cmd := fun _ _ => .fileNotFound }
    bench := benchEnvTimeout }

/-- Witness for C1 at a concrete healthy host. -/
theorem C1_collect_schema_total_witness :
    ModeledHost envC1 ∧ ∃ s, collect_system_info envC1 false = .ok s :=
  ⟨⟨(fun _ _ h => nomatch h), (fun _ h => nomatch h)⟩,
    C1_collect_schema_total envC1 false
      ⟨(fun _ _ h => nomatch h), (fun _ h => nomatch h)⟩⟩

end LLMNeofetch
